import Mathlib

/-!
Verification of the per-connection SMTP protocol engine of hectane/go-smtpsrv
(src/client.go, with the registry in the server file).

The engine is embedded shallowly:

* Go byte slices and strings are modelled as Lean `String`s whose `data`
  (a `List Char`) plays the role of the byte slice.  All inputs of interest
  are ASCII, where one byte is one character; the only byte-level operations
  the engine performs are `bytes.ToUpper`, `bytes.HasPrefix`, slicing off a
  matched ASCII literal, and splitting at the first space character, all of
  which agree with the character-level versions on such data.
* The external address validator `mail.ParseAddress` is consumed as a
  capability (as the specification prescribes): an arbitrary function
  `AddrValidator` returning either an error message or the normalized
  address.
* A connection is a finite stream of read events: a successfully read line,
  a prefix-only (too long for the buffer) line, or a read error (I/O error
  or timeout).  `Client.readLine` forwards a prefix-only line as a nil line
  with a nil error, which downstream code cannot distinguish from the empty
  line; this is reproduced faithfully.
* The Go code's invalid-RCPT branch writes its 501 reply and then, lacking a
  `return`, dereferences the nil result of the failed parse.  The embedding
  makes this branch an explicit `crashed` outcome.
-/

deriving instance DecidableEq for Except

namespace Smtpsrv

/-- Config (src/unnamed/part_001): listen address, banner, read timeout. -/
structure Config where
  Addr : String
  Banner : String
  ReadTimeout : Nat
deriving DecidableEq, Repr

/-- The session state of one `Client` (fields `mailFrom`, `mailTo` of the
`Client` struct in src/client.go). -/
structure Session where
  mailFrom : String
  mailTo : List String
deriving DecidableEq, Repr

/-- The state a fresh `Client` starts in (`NewClient`: zero-valued `mailFrom`,
`mailTo` set to the empty list). -/
def Session.init : Session := ⟨"", []⟩

/-- `Client.reset`: initializes all values to their defaults. -/
def Session.reset (_s : Session) : Session := Session.init

/-- A reply `<code> <text>\r\n` as produced by `Client.writeReply`. -/
structure Reply where
  code : Nat
  text : String
deriving DecidableEq, Repr

/-- Message (src/message.go): a raw message received from a client. -/
structure Message where
  From : String
  To : List String
  Body : String
deriving DecidableEq, Repr

/-- The external address validator (`mail.ParseAddress`), consumed as a
capability: an error message, or the normalized address `a.Address`. -/
abbrev AddrValidator : Type := String → Except String String

/-- `bytes.ToUpper` on the data of a string.  (Go's version is Unicode-aware;
on the ASCII command words and the `FROM:`/`TO:` literals tested by the
engine the two agree, since no non-ASCII rune upper-cases to an ASCII one
that occurs in those literals.) -/
def sUpper (s : String) : String := ⟨s.data.map Char.toUpper⟩

/-- `bytes.HasPrefix p s` at the character level. -/
def strStarts (p s : String) : Bool := p.data.isPrefixOf s.data

/-- Go slicing `b[n:]` for ASCII data. -/
def sDrop (n : Nat) (s : String) : String := ⟨s.data.drop n⟩

/-- `bytes.SplitN(l, " ", 2)`: the text before the first space and, when a
space occurs, the raw remainder after it. -/
def splitSp : List Char → List Char × Option (List Char)
  | [] => ([], none)
  | c :: cs =>
    if c = ' ' then ([], some cs)
    else ((splitSp cs).1.cons c, (splitSp cs).2)

/-- The whitespace set of `bytes.TrimSpace` (`unicode.IsSpace` restricted to
the characters it can meet here: space, tab, newline, vertical tab, form
feed, carriage return, next line, no-break space). -/
def isSpChar (c : Char) : Bool :=
  c == ' ' || c == '\t' || c == '\n' || c == Char.ofNat 11 ||
    c == Char.ofNat 12 || c == '\r' || c == Char.ofNat 133 || c == Char.ofNat 160

/-- `bytes.TrimSpace` on character data. -/
def trimSp (l : List Char) : List Char :=
  ((l.dropWhile isSpChar).reverse.dropWhile isSpChar).reverse

/-- The command word of a line as computed in `Client.run`:
`ToUpper(TrimSpace(SplitN(l, " ", 2)[0]))`. -/
def cmdOf (l : String) : String := sUpper ⟨trimSp (splitSp l.data).1⟩

/-- The parameter of a line as computed in `Client.run`: the raw remainder
after the first space; the nil parameter of a spaceless line behaves as the
empty string everywhere downstream. -/
def paramOf (l : String) : String := ⟨(splitSp l.data).2.getD []⟩

/-- `Client.processHELO`: reset the session and repeat the banner. -/
def processHELO (cfg : Config) (s : Session) : Session × List Reply :=
  (s.reset, [⟨250, cfg.Banner⟩])

/-- `Client.processMAIL`: reject a second MAIL, require the `FROM:` literal
(case-insensitively), validate the address, store it on success. -/
def processMAIL (parse : AddrValidator) (s : Session) (b : String) :
    Session × List Reply :=
  if s.mailFrom.length ≠ 0 then
    (s, [⟨503, "MAIL already invoked"⟩])
  else if ¬ strStarts "FROM:" (sUpper b) then
    (s, [⟨501, "syntax: \"MAIL FROM:<address>\""⟩])
  else
    match parse (sDrop 5 b) with
    | .error e => (s, [⟨501, e⟩])
    | .ok addr => ({ s with mailFrom := addr }, [⟨250, "ok"⟩])

/-- The outcome of `Client.processRCPT`: a normal return, or the crash the
invalid-address branch runs into (it writes its 501 reply, falls through
without returning, and reads `a.Address` from the nil parse result). -/
inductive RcptOut where
  | ok (s : Session) (rs : List Reply)
  | crashed (rs : List Reply)
deriving DecidableEq, Repr

/-- `Client.processRCPT`: require a prior MAIL, require the `TO:` literal
(case-insensitively), validate the address and append it.  The error branch
of the validation is the crashing fall-through described in `RcptOut`. -/
def processRCPT (parse : AddrValidator) (s : Session) (b : String) : RcptOut :=
  if s.mailFrom.length = 0 then
    .ok s [⟨503, "MAIL must be invoked first"⟩]
  else if ¬ strStarts "TO:" (sUpper b) then
    .ok s [⟨501, "syntax: \"RCPT TO:<address>\""⟩]
  else
    match parse (sDrop 3 b) with
    | .error e => .crashed [⟨501, e⟩]
    | .ok addr => .ok { s with mailTo := s.mailTo ++ [addr] } [⟨250, "ok"⟩]

/-- `strings.Join(lines, "\r\n")`. -/
def joinCRLF : List String → String
  | [] => ""
  | [l] => l
  | l :: ls => l ++ "\r\n" ++ joinCRLF ls

/-- Where the engine's loop stands: dispatching command lines, or inside
`processDATA`'s line-collection loop with the lines gathered so far. -/
inductive Mode where
  | cmd
  | data (lines : List String)
deriving DecidableEq, Repr

/-- One read attempt on the connection: a complete line, a prefix-only line
(too long for the buffered reader), or a read error (I/O error, timeout). -/
inductive Ev where
  | line (s : String)
  | tooLong
  | rdErr
deriving DecidableEq, Repr

/-- `Client.readLine`: a read error yields the error (`none` here); a
prefix-only line is forwarded as a nil line together with a nil error, which
every consumer treats exactly like the empty line. -/
def readLine : Ev → Option String
  | .line s => some s
  | .tooLong => some ""
  | .rdErr => none

/-- The result of processing one successfully read line. -/
inductive StepRes where
  | cont (s : Session) (m : Mode) (rs : List Reply) (ms : List Message)
  | quit (rs : List Reply)
  | crashed (rs : List Reply)
deriving DecidableEq, Repr

/-- One iteration of the engine on a successfully read line: in command mode
this is the dispatch switch of `Client.run`; in data mode it is one
iteration of `Client.processDATA`'s collection loop. -/
def stepLine (cfg : Config) (parse : AddrValidator) (s : Session) (m : Mode)
    (l : String) : StepRes :=
  match m with
  | .data lines =>
    if l = "." then
      .cont s.reset .cmd [⟨250, "message queued for delivery"⟩]
        [⟨s.mailFrom, s.mailTo, joinCRLF lines⟩]
    else
      .cont s (.data (lines ++ [l])) [] []
  | .cmd =>
    if cmdOf l = "HELO" ∨ cmdOf l = "EHLO" then
      .cont (processHELO cfg s).1 .cmd (processHELO cfg s).2 []
    else if cmdOf l = "MAIL" then
      .cont (processMAIL parse s (paramOf l)).1 .cmd
        (processMAIL parse s (paramOf l)).2 []
    else if cmdOf l = "RCPT" then
      match processRCPT parse s (paramOf l) with
      | .ok s2 rs => .cont s2 .cmd rs []
      | .crashed rs => .crashed rs
    else if cmdOf l = "DATA" then
      if s.mailTo.length = 0 then
        .cont s .cmd [⟨503, "RCPT must be invoked first"⟩] []
      else
        .cont s (.data []) [⟨354, "continue until \\r\\n.\\r\\n"⟩] []
    else if cmdOf l = "RSET" then
      .cont s.reset .cmd [⟨250, "ok"⟩] []
    else if cmdOf l = "NOOP" then
      .cont s .cmd [⟨250, "ok"⟩] []
    else if cmdOf l = "QUIT" then
      .quit [⟨221, "bye"⟩]
    else
      .cont s .cmd [⟨502, "unsupported command"⟩] []

/-- How a run of the engine loop ended. -/
inductive Term where
  | readErr
  | quit
  | crashed
deriving DecidableEq, Repr

/-- Only the QUIT branch of `Client.run` closes the transport; the read-error
return path merely signals completion. -/
def Term.connClosed : Term → Bool
  | .quit => true
  | _ => false

/-- The observable outcome of (a suffix of) an engine run: the replies sent,
the messages handed to the sink, and how the loop ended. -/
structure RunOut where
  replies : List Reply
  msgs : List Message
  term : Term
deriving DecidableEq, Repr

/-- Prepend replies and messages emitted by one step to the outcome of the
remaining run. -/
def prepOut (rs : List Reply) (ms : List Message) (o : RunOut) : RunOut :=
  ⟨rs ++ o.replies, ms ++ o.msgs, o.term⟩

/-- The loop of `Client.run` from a given session and mode over a finite
stream of read events.  An exhausted stream behaves like a read error (the
transport has nothing further to offer).  A read error inside data mode
only breaks `processDATA`'s inner loop; the command loop then issues the
next read. -/
def runFrom (cfg : Config) (parse : AddrValidator) (s : Session) (m : Mode) :
    List Ev → RunOut
  | [] => ⟨[], [], .readErr⟩
  | e :: rest =>
    match readLine e with
    | none =>
      match m with
      | .cmd => ⟨[], [], .readErr⟩
      | .data _ => runFrom cfg parse s .cmd rest
    | some l =>
      match stepLine cfg parse s m l with
      | .cont s2 m2 rs ms => prepOut rs ms (runFrom cfg parse s2 m2 rest)
      | .quit rs => ⟨rs, [], .quit⟩
      | .crashed rs => ⟨rs, [], .crashed⟩

/-- `Client.run`: the 220 banner greeting followed by the command loop from
the initial session. -/
def run (cfg : Config) (parse : AddrValidator) (evs : List Ev) : RunOut :=
  prepOut [⟨220, cfg.Banner ++ " [go-smtpsrv]"⟩] []
    (runFrom cfg parse Session.init .cmd evs)

/-- The specified session invariant: the recipient list is non-empty only if
the sender is set. -/
def Inv (s : Session) : Prop := s.mailTo ≠ [] → s.mailFrom ≠ ""

/-- Every session value the engine holds at the top of a loop iteration,
starting from the given one (instrumentation for the state invariant). -/
def sessTrace (cfg : Config) (parse : AddrValidator) (s : Session) (m : Mode) :
    List Ev → List Session
  | [] => [s]
  | e :: rest =>
    s ::
      match readLine e with
      | none =>
        match m with
        | .cmd => []
        | .data _ => sessTrace cfg parse s .cmd rest
      | some l =>
        match stepLine cfg parse s m l with
        | .cont s2 m2 _ _ => sessTrace cfg parse s2 m2 rest
        | .quit _ => []
        | .crashed _ => []

/-- The command lines of one successful submission round:
HELO, MAIL, one RCPT per intended recipient, DATA, the body lines, and the
terminating dot line. -/
def happyCore (bf : String) (rcpts : List (String × String))
    (body : List String) : List Ev :=
  Ev.line "HELO" :: Ev.line ("MAIL " ++ bf) ::
    ((rcpts.map fun p => Ev.line ("RCPT " ++ p.1)) ++
      (Ev.line "DATA" :: ((body.map Ev.line) ++ [Ev.line "."])))

/-- The replies of one successful submission round. -/
def happyReplies (cfg : Config) (rcpts : List (String × String)) : List Reply :=
  Reply.mk 250 cfg.Banner :: Reply.mk 250 "ok" ::
    ((rcpts.map fun _ => Reply.mk 250 "ok") ++
      (Reply.mk 354 "continue until \\r\\n.\\r\\n" ::
        [Reply.mk 250 "message queued for delivery"]))

/-- A concrete stand-in for the external address validator, used to
instantiate the universally quantified theorems. -/
def parse0 : AddrValidator := fun s =>
  if s = "a@localhost" then .ok "a@localhost"
  else if s = "b@localhost" then .ok "b@localhost"
  else .error "mail: missing at sign"

/-- A concrete configuration for instantiating the theorems. -/
def cfg0 : Config := ⟨":smtp", "Banner", 100⟩

/-! ### Basic lemmas about the line parser -/

theorem strMk_data (s : String) : String.mk s.data = s := by
  cases s
  rfl

theorem str_len_zero (s : String) : s.length = 0 ↔ s = "" := by
  cases s with
  | mk l =>
    constructor
    · intro h
      have : l = [] := List.length_eq_zero.mp h
      simp [this]
    · intro h
      rw [h]
      rfl

theorem splitSp_word (w : List Char) (hw : ∀ c ∈ w, c ≠ ' ') (xs : List Char) :
    splitSp (w ++ ' ' :: xs) = (w, some xs) := by
  induction w with
  | nil => simp [splitSp]
  | cons c cs ih =>
    have hc : c ≠ ' ' := hw c (by simp)
    have ihh := ih (fun d hd => hw d (by simp [hd]))
    simp [splitSp, hc, ihh]

theorem cmdOf_MAIL (b : String) : cmdOf ("MAIL " ++ b) = "MAIL" := by
  have hd : ("MAIL " ++ b).data = ['M', 'A', 'I', 'L'] ++ ' ' :: b.data := by
    rw [String.data_append]
    rfl
  rw [cmdOf, hd, splitSp_word ['M', 'A', 'I', 'L'] (by decide)]
  rfl

theorem paramOf_MAIL (b : String) : paramOf ("MAIL " ++ b) = b := by
  have hd : ("MAIL " ++ b).data = ['M', 'A', 'I', 'L'] ++ ' ' :: b.data := by
    rw [String.data_append]
    rfl
  rw [paramOf, hd, splitSp_word ['M', 'A', 'I', 'L'] (by decide)]
  exact strMk_data b

theorem cmdOf_RCPT (b : String) : cmdOf ("RCPT " ++ b) = "RCPT" := by
  have hd : ("RCPT " ++ b).data = ['R', 'C', 'P', 'T'] ++ ' ' :: b.data := by
    rw [String.data_append]
    rfl
  rw [cmdOf, hd, splitSp_word ['R', 'C', 'P', 'T'] (by decide)]
  rfl

theorem paramOf_RCPT (b : String) : paramOf ("RCPT " ++ b) = b := by
  have hd : ("RCPT " ++ b).data = ['R', 'C', 'P', 'T'] ++ ' ' :: b.data := by
    rw [String.data_append]
    rfl
  rw [paramOf, hd, splitSp_word ['R', 'C', 'P', 'T'] (by decide)]
  exact strMk_data b

/-! ### Single-step dispatch lemmas -/

theorem stepLine_HELO (cfg : Config) (parse : AddrValidator) (s : Session) :
    stepLine cfg parse s .cmd "HELO" =
      .cont Session.init .cmd [⟨250, cfg.Banner⟩] [] := by
  have h : cmdOf "HELO" = "HELO" := by decide
  simp [stepLine, h, processHELO, Session.reset]

theorem stepLine_MAIL (cfg : Config) (parse : AddrValidator) (s : Session)
    (b : String) :
    stepLine cfg parse s .cmd ("MAIL " ++ b) =
      .cont (processMAIL parse s b).1 .cmd (processMAIL parse s b).2 [] := by
  simp [stepLine, cmdOf_MAIL, paramOf_MAIL]

theorem stepLine_RCPT (cfg : Config) (parse : AddrValidator) (s : Session)
    (b : String) :
    stepLine cfg parse s .cmd ("RCPT " ++ b) =
      (match processRCPT parse s b with
       | .ok s2 rs => StepRes.cont s2 .cmd rs []
       | .crashed rs => StepRes.crashed rs) := by
  simp [stepLine, cmdOf_RCPT, paramOf_RCPT]

theorem stepLine_DATA (cfg : Config) (parse : AddrValidator) (s : Session) :
    stepLine cfg parse s .cmd "DATA" =
      (if s.mailTo.length = 0 then
        .cont s .cmd [⟨503, "RCPT must be invoked first"⟩] []
      else
        .cont s (.data []) [⟨354, "continue until \\r\\n.\\r\\n"⟩] []) := by
  have h : cmdOf "DATA" = "DATA" := by decide
  simp [stepLine, h]

theorem stepLine_QUIT (cfg : Config) (parse : AddrValidator) (s : Session) :
    stepLine cfg parse s .cmd "QUIT" = .quit [⟨221, "bye"⟩] := by
  have h : cmdOf "QUIT" = "QUIT" := by decide
  simp [stepLine, h]

theorem stepLine_empty (cfg : Config) (parse : AddrValidator) (s : Session) :
    stepLine cfg parse s .cmd "" =
      .cont s .cmd [⟨502, "unsupported command"⟩] [] := by
  have h : cmdOf "" = "" := by decide
  simp [stepLine, h]

theorem stepLine_dot (cfg : Config) (parse : AddrValidator) (s : Session)
    (lines : List String) :
    stepLine cfg parse s (.data lines) "." =
      .cont Session.init .cmd [⟨250, "message queued for delivery"⟩]
        [⟨s.mailFrom, s.mailTo, joinCRLF lines⟩] := by
  simp [stepLine, Session.reset]

theorem stepLine_dataLine (cfg : Config) (parse : AddrValidator) (s : Session)
    (lines : List String) (l : String) (h : l ≠ ".") :
    stepLine cfg parse s (.data lines) l =
      .cont s (.data (lines ++ [l])) [] [] := by
  simp [stepLine, h]

/-! ### Unfolding lemmas for the engine loop -/

theorem prepOut_nil (o : RunOut) : prepOut [] [] o = o := by
  cases o
  simp [prepOut]

theorem prepOut_prepOut (a c : List Reply) (b d : List Message) (o : RunOut) :
    prepOut a b (prepOut c d o) = prepOut (a ++ c) (b ++ d) o := by
  simp [prepOut]

theorem runFrom_line (cfg : Config) (parse : AddrValidator) (s : Session)
    (m : Mode) (l : String) (rest : List Ev) (s2 : Session) (m2 : Mode)
    (rs : List Reply) (ms : List Message)
    (h : stepLine cfg parse s m l = .cont s2 m2 rs ms) :
    runFrom cfg parse s m (Ev.line l :: rest) =
      prepOut rs ms (runFrom cfg parse s2 m2 rest) := by
  simp [runFrom, readLine, h]

theorem runFrom_line_quit (cfg : Config) (parse : AddrValidator) (s : Session)
    (m : Mode) (l : String) (rest : List Ev) (rs : List Reply)
    (h : stepLine cfg parse s m l = .quit rs) :
    runFrom cfg parse s m (Ev.line l :: rest) = ⟨rs, [], .quit⟩ := by
  simp [runFrom, readLine, h]

theorem runFrom_line_crash (cfg : Config) (parse : AddrValidator) (s : Session)
    (m : Mode) (l : String) (rest : List Ev) (rs : List Reply)
    (h : stepLine cfg parse s m l = .crashed rs) :
    runFrom cfg parse s m (Ev.line l :: rest) = ⟨rs, [], .crashed⟩ := by
  simp [runFrom, readLine, h]

theorem runFrom_quit (cfg : Config) (parse : AddrValidator) (s : Session)
    (rest : List Ev) :
    runFrom cfg parse s .cmd (Ev.line "QUIT" :: rest) =
      ⟨[⟨221, "bye"⟩], [], .quit⟩ :=
  runFrom_line_quit cfg parse s .cmd "QUIT" rest _ (stepLine_QUIT cfg parse s)

theorem runFrom_rdErr_cmd (cfg : Config) (parse : AddrValidator) (s : Session)
    (rest : List Ev) :
    runFrom cfg parse s .cmd (Ev.rdErr :: rest) = ⟨[], [], .readErr⟩ := by
  simp [runFrom, readLine]

theorem runFrom_rdErr_data (cfg : Config) (parse : AddrValidator) (s : Session)
    (lines : List String) (rest : List Ev) :
    runFrom cfg parse s (.data lines) (Ev.rdErr :: rest) =
      runFrom cfg parse s .cmd rest := by
  simp [runFrom, readLine]

theorem runFrom_tooLong_cmd (cfg : Config) (parse : AddrValidator) (s : Session)
    (rest : List Ev) :
    runFrom cfg parse s .cmd (Ev.tooLong :: rest) =
      prepOut [⟨502, "unsupported command"⟩] [] (runFrom cfg parse s .cmd rest) := by
  simp [runFrom, readLine, stepLine_empty]

/-! ### Composite runs -/

theorem processRCPT_valid (parse : AddrValidator) (fa : String) (hfa : fa ≠ "")
    (acc : List String) (b a : String)
    (hp : strStarts "TO:" (sUpper b) = true) (ha : parse (sDrop 3 b) = .ok a) :
    processRCPT parse ⟨fa, acc⟩ b = .ok ⟨fa, acc ++ [a]⟩ [⟨250, "ok"⟩] := by
  have hlen : ¬ (Session.mk fa acc).mailFrom.length = 0 := by
    intro hh
    exact hfa ((str_len_zero fa).mp hh)
  simp [processRCPT, hlen, hp, ha]

theorem runFrom_rcpts (cfg : Config) (parse : AddrValidator) (fa : String)
    (hfa : fa ≠ "") :
    ∀ (rcpts : List (String × String)) (acc : List String) (rest : List Ev),
      (∀ p ∈ rcpts,
        strStarts "TO:" (sUpper p.1) = true ∧ parse (sDrop 3 p.1) = .ok p.2) →
      runFrom cfg parse ⟨fa, acc⟩ .cmd
          ((rcpts.map fun p => Ev.line ("RCPT " ++ p.1)) ++ rest) =
        prepOut (rcpts.map fun _ => Reply.mk 250 "ok") []
          (runFrom cfg parse ⟨fa, acc ++ rcpts.map Prod.snd⟩ .cmd rest) := by
  intro rcpts
  induction rcpts with
  | nil =>
    intro acc rest _
    simp [prepOut_nil]
  | cons p ps ih =>
    intro acc rest h
    obtain ⟨hp1, hp2⟩ := h p (by simp)
    have hstep : stepLine cfg parse ⟨fa, acc⟩ .cmd ("RCPT " ++ p.1) =
        .cont ⟨fa, acc ++ [p.2]⟩ .cmd [⟨250, "ok"⟩] [] := by
      rw [stepLine_RCPT, processRCPT_valid parse fa hfa acc p.1 p.2 hp1 hp2]
    rw [List.map_cons, List.cons_append,
      runFrom_line cfg parse _ _ _ _ _ _ _ _ hstep,
      ih (acc ++ [p.2]) rest (fun q hq => h q (by simp [hq])),
      prepOut_prepOut]
    simp

theorem runFrom_body (cfg : Config) (parse : AddrValidator) (s : Session) :
    ∀ (body acc : List String) (rest : List Ev), (∀ l ∈ body, l ≠ ".") →
      runFrom cfg parse s (.data acc) ((body.map Ev.line) ++ rest) =
        runFrom cfg parse s (.data (acc ++ body)) rest := by
  intro body
  induction body with
  | nil =>
    intro acc rest _
    simp
  | cons l ls ih =>
    intro acc rest h
    rw [List.map_cons, List.cons_append,
      runFrom_line cfg parse _ _ _ _ _ _ _ _
        (stepLine_dataLine cfg parse s acc l (h l (by simp))),
      prepOut_nil, ih (acc ++ [l]) rest (fun q hq => h q (by simp [hq]))]
    simp

theorem runFrom_happyCore (cfg : Config) (parse : AddrValidator)
    (bf fa : String) (rcpts : List (String × String)) (body : List String)
    (hbf : strStarts "FROM:" (sUpper bf) = true)
    (hfa : parse (sDrop 5 bf) = .ok fa)
    (hfane : fa ≠ "")
    (hr : ∀ p ∈ rcpts,
      strStarts "TO:" (sUpper p.1) = true ∧ parse (sDrop 3 p.1) = .ok p.2)
    (hn : rcpts ≠ [])
    (hbody : ∀ l ∈ body, l ≠ ".")
    (rest : List Ev) :
    runFrom cfg parse Session.init .cmd (happyCore bf rcpts body ++ rest) =
      prepOut (happyReplies cfg rcpts)
        [⟨fa, rcpts.map Prod.snd, joinCRLF body⟩]
        (runFrom cfg parse Session.init .cmd rest) := by
  have hmail : stepLine cfg parse Session.init .cmd ("MAIL " ++ bf) =
      .cont ⟨fa, []⟩ .cmd [⟨250, "ok"⟩] [] := by
    rw [stepLine_MAIL]
    simp [processMAIL, Session.init, hbf, hfa]
  have hdata : stepLine cfg parse ⟨fa, rcpts.map Prod.snd⟩ .cmd "DATA" =
      .cont ⟨fa, rcpts.map Prod.snd⟩ (.data [])
        [⟨354, "continue until \\r\\n.\\r\\n"⟩] [] := by
    rw [stepLine_DATA]
    have hlen : ¬ (List.map Prod.snd rcpts).length = 0 := by
      intro hh
      exact hn (List.map_eq_nil_iff.mp (List.length_eq_zero.mp hh))
    simp [hlen]
    exact hn
  rw [happyCore]
  simp only [List.cons_append, List.append_assoc, List.singleton_append]
  rw [runFrom_line cfg parse _ _ _ _ _ _ _ _ (stepLine_HELO cfg parse Session.init),
    runFrom_line cfg parse _ _ _ _ _ _ _ _ hmail,
    runFrom_rcpts cfg parse fa hfane rcpts [] _ hr]
  simp only [List.nil_append]
  rw [runFrom_line cfg parse _ _ _ _ _ _ _ _ hdata,
    runFrom_body cfg parse _ body [] _ hbody]
  simp only [List.nil_append]
  rw [runFrom_line cfg parse _ _ _ _ _ _ _ _
    (stepLine_dot cfg parse ⟨fa, rcpts.map Prod.snd⟩ body)]
  simp only [prepOut_prepOut]
  simp [happyReplies, prepOut]

/-! ### The session invariant -/

theorem processMAIL_inv (parse : AddrValidator) (s : Session) (b : String)
    (h : Inv s) : Inv (processMAIL parse s b).1 := by
  unfold processMAIL
  split
  · exact h
  · rename_i hlen
    split
    · exact h
    · cases hp : parse (sDrop 5 b) with
      | error e => simp [hp]; exact h
      | ok addr =>
        simp [hp]
        intro hne
        exact absurd ((str_len_zero s.mailFrom).mp (not_not.mp hlen)) (h hne)

theorem processRCPT_inv (parse : AddrValidator) (s : Session) (b : String)
    (s2 : Session) (rs : List Reply) (h : Inv s)
    (hr : processRCPT parse s b = .ok s2 rs) : Inv s2 := by
  unfold processRCPT at hr
  split at hr
  · cases hr
    exact h
  · rename_i hlen
    split at hr
    · cases hr
      exact h
    · cases hp : parse (sDrop 3 b) with
      | error e =>
        rw [hp] at hr
        simp at hr
      | ok addr =>
        rw [hp] at hr
        cases hr
        intro _
        exact fun hh => hlen ((str_len_zero _).mpr hh)

theorem stepLine_inv (cfg : Config) (parse : AddrValidator) :
    ∀ (s : Session) (m : Mode) (l : String) (s2 : Session) (m2 : Mode)
      (rs : List Reply) (ms : List Message), Inv s →
      stepLine cfg parse s m l = .cont s2 m2 rs ms → Inv s2 := by
  intro s m l s2 m2 rs ms h hstep
  cases m with
  | data lines =>
    by_cases hd : l = "."
    · subst hd
      simp only [stepLine, if_pos rfl] at hstep
      cases hstep
      intro hne
      exact absurd rfl hne
    · simp only [stepLine, if_neg hd] at hstep
      cases hstep
      exact h
  | cmd =>
    by_cases h1 : cmdOf l = "HELO" ∨ cmdOf l = "EHLO"
    · simp only [stepLine, if_pos h1] at hstep
      cases hstep
      intro hne
      exact absurd rfl hne
    · by_cases h2 : cmdOf l = "MAIL"
      · simp only [stepLine, if_neg h1, if_pos h2] at hstep
        cases hstep
        exact processMAIL_inv parse s (paramOf l) h
      · by_cases h3 : cmdOf l = "RCPT"
        · simp only [stepLine, if_neg h1, if_neg h2, if_pos h3] at hstep
          cases hr : processRCPT parse s (paramOf l) with
          | ok s3 rs3 =>
            rw [hr] at hstep
            cases hstep
            exact processRCPT_inv parse s (paramOf l) _ _ h hr
          | crashed rs3 =>
            rw [hr] at hstep
            simp at hstep
        · by_cases h4 : cmdOf l = "DATA"
          · simp only [stepLine, if_neg h1, if_neg h2, if_neg h3, if_pos h4] at hstep
            by_cases h5 : s.mailTo.length = 0
            · simp only [if_pos h5] at hstep
              cases hstep
              exact h
            · simp only [if_neg h5] at hstep
              cases hstep
              exact h
          · by_cases h6 : cmdOf l = "RSET"
            · simp only [stepLine, if_neg h1, if_neg h2, if_neg h3, if_neg h4,
                if_pos h6] at hstep
              cases hstep
              intro hne
              exact absurd rfl hne
            · by_cases h7 : cmdOf l = "NOOP"
              · simp only [stepLine, if_neg h1, if_neg h2, if_neg h3, if_neg h4,
                  if_neg h6, if_pos h7] at hstep
                cases hstep
                exact h
              · by_cases h8 : cmdOf l = "QUIT"
                · simp only [stepLine, if_neg h1, if_neg h2, if_neg h3, if_neg h4,
                    if_neg h6, if_neg h7, if_pos h8] at hstep
                  simp at hstep
                · simp only [stepLine, if_neg h1, if_neg h2, if_neg h3, if_neg h4,
                    if_neg h6, if_neg h7, if_neg h8] at hstep
                  cases hstep
                  exact h

theorem sessTrace_inv (cfg : Config) (parse : AddrValidator) :
    ∀ (evs : List Ev) (s : Session) (m : Mode), Inv s →
      ∀ s2 ∈ sessTrace cfg parse s m evs, Inv s2 := by
  intro evs
  induction evs with
  | nil =>
    intro s m h s2 hs2
    simp [sessTrace] at hs2
    subst hs2
    exact h
  | cons e rest ih =>
    intro s m h s2 hs2
    cases e with
    | rdErr =>
      cases m with
      | cmd =>
        simp [sessTrace, readLine] at hs2
        subst hs2
        exact h
      | data lines =>
        simp [sessTrace, readLine] at hs2
        rcases hs2 with h1 | h1
        · subst h1
          exact h
        · exact ih s .cmd h s2 h1
    | line l =>
      rcases hstep : stepLine cfg parse s m l with ⟨s3, m3, rs3, ms3⟩ | rs3 | rs3
      · simp [sessTrace, readLine, hstep] at hs2
        rcases hs2 with h1 | h1
        · subst h1
          exact h
        · exact ih s3 m3 (stepLine_inv cfg parse s m l s3 m3 rs3 ms3 h hstep) s2 h1
      · simp [sessTrace, readLine, hstep] at hs2
        subst hs2
        exact h
      · simp [sessTrace, readLine, hstep] at hs2
        subst hs2
        exact h
    | tooLong =>
      rcases hstep : stepLine cfg parse s m "" with ⟨s3, m3, rs3, ms3⟩ | rs3 | rs3
      · simp [sessTrace, readLine, hstep] at hs2
        rcases hs2 with h1 | h1
        · subst h1
          exact h
        · exact ih s3 m3 (stepLine_inv cfg parse s m "" s3 m3 rs3 ms3 h hstep) s2 h1
      · simp [sessTrace, readLine, hstep] at hs2
        subst hs2
        exact h
      · simp [sessTrace, readLine, hstep] at hs2
        subst hs2
        exact h

/-! ### The claims -/

/-- C1: a session HELO, MAIL FROM:(valid addr), N times RCPT TO:(valid addr)
with N at least 1, DATA with body lines and the "." terminator, then QUIT,
emits exactly one Message whose From is the validated sender, whose To lists
the N validated recipients in RCPT order, and whose Body is the body lines
joined by CRLF; DATA completion resets the session to S0, so running the
identical submission round a second time on the same connection (before the
final QUIT) succeeds the same way and emits the same Message again.
(The hypothesis that the validated sender is non-empty reflects that the
address validator never returns an empty normalized address.) -/
theorem c1_happy_sequence (cfg : Config) (parse : AddrValidator)
    (bf fa : String) (rcpts : List (String × String)) (body : List String)
    (hbf : strStarts "FROM:" (sUpper bf) = true)
    (hfa : parse (sDrop 5 bf) = .ok fa)
    (hfane : fa ≠ "")
    (hr : ∀ p ∈ rcpts,
      strStarts "TO:" (sUpper p.1) = true ∧ parse (sDrop 3 p.1) = .ok p.2)
    (hn : rcpts ≠ [])
    (hbody : ∀ l ∈ body, l ≠ ".") :
    run cfg parse (happyCore bf rcpts body ++ [Ev.line "QUIT"]) =
      ⟨Reply.mk 220 (cfg.Banner ++ " [go-smtpsrv]") ::
          (happyReplies cfg rcpts ++ [Reply.mk 221 "bye"]),
        [⟨fa, rcpts.map Prod.snd, joinCRLF body⟩], .quit⟩ ∧
    run cfg parse
        (happyCore bf rcpts body ++ (happyCore bf rcpts body ++ [Ev.line "QUIT"])) =
      ⟨Reply.mk 220 (cfg.Banner ++ " [go-smtpsrv]") ::
          (happyReplies cfg rcpts ++ (happyReplies cfg rcpts ++ [Reply.mk 221 "bye"])),
        [⟨fa, rcpts.map Prod.snd, joinCRLF body⟩,
          ⟨fa, rcpts.map Prod.snd, joinCRLF body⟩], .quit⟩ := by
  have h1 := runFrom_happyCore cfg parse bf fa rcpts body hbf hfa hfane hr hn hbody
  constructor
  · rw [run, h1 [Ev.line "QUIT"], runFrom_quit]
    simp [prepOut]
  · rw [run, h1 (happyCore bf rcpts body ++ [Ev.line "QUIT"]),
      h1 [Ev.line "QUIT"], runFrom_quit]
    simp [prepOut]

/-- C1 witness: the round-trip of the specification, instantiated with the
stand-in validator; the submitted body lines produce the CRLF-joined body. -/
theorem c1_happy_sequence_witness :
    strStarts "FROM:" (sUpper "FROM:a@localhost") = true ∧
    parse0 (sDrop 5 "FROM:a@localhost") = .ok "a@localhost" ∧
    ("a@localhost" : String) ≠ "" ∧
    (∀ p ∈ [(("TO:b@localhost", "b@localhost") : String × String)],
      strStarts "TO:" (sUpper p.1) = true ∧ parse0 (sDrop 3 p.1) = .ok p.2) ∧
    ([(("TO:b@localhost", "b@localhost") : String × String)] ≠ []) ∧
    (∀ l ∈ ["this", "is", "a", "test"], l ≠ ".") ∧
    joinCRLF ["this", "is", "a", "test"] = "this\r\nis\r\na\r\ntest" ∧
    run cfg0 parse0
        (happyCore "FROM:a@localhost" [("TO:b@localhost", "b@localhost")]
            ["this", "is", "a", "test"] ++ [Ev.line "QUIT"]) =
      ⟨Reply.mk 220 ("Banner" ++ " [go-smtpsrv]") ::
          (happyReplies cfg0 [("TO:b@localhost", "b@localhost")] ++
            [Reply.mk 221 "bye"]),
        [⟨"a@localhost", ["b@localhost"], joinCRLF ["this", "is", "a", "test"]⟩],
        .quit⟩ :=
  ⟨by decide, by decide, by decide, by decide, by decide, by decide, by decide,
    (c1_happy_sequence cfg0 parse0 "FROM:a@localhost" "a@localhost"
      [("TO:b@localhost", "b@localhost")] ["this", "is", "a", "test"]
      (by decide) (by decide) (by decide) (by decide) (by decide) (by decide)).1⟩

theorem processRCPT_invalid (parse : AddrValidator) (s : Session)
    (b e : String) (hs : s.mailFrom ≠ "")
    (hp : strStarts "TO:" (sUpper b) = true)
    (he : parse (sDrop 3 b) = .error e) :
    processRCPT parse s b = .crashed [⟨501, e⟩] := by
  have hlen : ¬ s.mailFrom.length = 0 := fun hh => hs ((str_len_zero _).mp hh)
  simp [processRCPT, hlen, hp, he]

/-- C2: with a sender set, a RCPT command carrying the TO: literal but an
address the validator rejects does write the 501 reply with the validator's
message — but then, instead of recovering with the session unchanged, the
handler falls through and dereferences the nil result of the failed parse:
the session crashes.  (This theorem evaluates the code at the failing
branch; the claimed local recovery does not happen.) -/
theorem c2_rcpt_invalid_crashes (parse : AddrValidator) (s : Session)
    (b e : String) (hs : s.mailFrom ≠ "")
    (hp : strStarts "TO:" (sUpper b) = true)
    (he : parse (sDrop 3 b) = .error e) :
    processRCPT parse s b = .crashed [⟨501, e⟩] :=
  processRCPT_invalid parse s b e hs hp he

/-- C2 witness: the crashing branch at a concrete failing input. -/
theorem c2_rcpt_invalid_crashes_witness :
    (Session.mk "a@localhost" []).mailFrom ≠ "" ∧
    strStarts "TO:" (sUpper "TO:bad") = true ∧
    parse0 (sDrop 3 "TO:bad") = .error "mail: missing at sign" ∧
    processRCPT parse0 ⟨"a@localhost", []⟩ "TO:bad" =
      .crashed [⟨501, "mail: missing at sign"⟩] :=
  ⟨by decide, by decide, by decide,
    c2_rcpt_invalid_crashes parse0 ⟨"a@localhost", []⟩ "TO:bad"
      "mail: missing at sign" (by decide) (by decide) (by decide)⟩

/-- C3: the unguarded use of the failed parse in RCPT's error branch is
reachable from the public interface: after a valid MAIL, a RCPT whose
TO:-prefixed address the validator rejects makes the engine write the 501
reply and then crash on the nil parse result; the run ends as crashed and
no further input is processed. -/
theorem c3_crash_reachable (cfg : Config) (parse : AddrValidator)
    (bf fa b e : String) (rest : List Ev)
    (hbf : strStarts "FROM:" (sUpper bf) = true)
    (hfa : parse (sDrop 5 bf) = .ok fa)
    (hfane : fa ≠ "")
    (hp : strStarts "TO:" (sUpper b) = true)
    (he : parse (sDrop 3 b) = .error e) :
    run cfg parse (Ev.line ("MAIL " ++ bf) :: Ev.line ("RCPT " ++ b) :: rest) =
      ⟨[⟨220, cfg.Banner ++ " [go-smtpsrv]"⟩, ⟨250, "ok"⟩, ⟨501, e⟩],
        [], .crashed⟩ := by
  have hmail : stepLine cfg parse Session.init .cmd ("MAIL " ++ bf) =
      .cont ⟨fa, []⟩ .cmd [⟨250, "ok"⟩] [] := by
    rw [stepLine_MAIL]
    simp [processMAIL, Session.init, hbf, hfa]
  have hrcpt : stepLine cfg parse ⟨fa, []⟩ .cmd ("RCPT " ++ b) =
      .crashed [⟨501, e⟩] := by
    rw [stepLine_RCPT,
      processRCPT_invalid parse ⟨fa, []⟩ b e hfane hp he]
  rw [run, runFrom_line cfg parse _ _ _ _ _ _ _ _ hmail,
    runFrom_line_crash cfg parse _ _ _ _ _ hrcpt]
  simp [prepOut]

/-- C3 witness: the crash reached from the public interface at a concrete
input; the trailing QUIT is never processed (no 221 reply appears). -/
theorem c3_crash_reachable_witness :
    strStarts "FROM:" (sUpper "FROM:a@localhost") = true ∧
    parse0 (sDrop 5 "FROM:a@localhost") = .ok "a@localhost" ∧
    ("a@localhost" : String) ≠ "" ∧
    strStarts "TO:" (sUpper "TO:bad") = true ∧
    parse0 (sDrop 3 "TO:bad") = .error "mail: missing at sign" ∧
    run cfg0 parse0
        [Ev.line ("MAIL " ++ "FROM:a@localhost"),
          Ev.line ("RCPT " ++ "TO:bad"), Ev.line "QUIT"] =
      ⟨[⟨220, cfg0.Banner ++ " [go-smtpsrv]"⟩, ⟨250, "ok"⟩,
          ⟨501, "mail: missing at sign"⟩], [], .crashed⟩ :=
  ⟨by decide, by decide, by decide, by decide, by decide,
    c3_crash_reachable cfg0 parse0 "FROM:a@localhost" "a@localhost" "TO:bad"
      "mail: missing at sign" [Ev.line "QUIT"]
      (by decide) (by decide) (by decide) (by decide) (by decide)⟩

/-- C4 counterexample: on a prefix-only (over-long) line the command loop
does not terminate and does send a reply.  `readLine` returns the prefix-only
line as a nil line with a nil error, so the loop treats it as an empty
command and answers 502 "unsupported command"; and when the loop does end on
a read error, the transport is not closed by the engine (only the QUIT
branch closes it). -/
theorem c4_read_failure_counterexample :
    run cfg0 parse0 [Ev.tooLong] =
      ⟨[⟨220, "Banner [go-smtpsrv]"⟩, ⟨502, "unsupported command"⟩],
        [], .readErr⟩ ∧
    Term.readErr.connClosed = false := by
  decide

/-- C4 (amended): on an I/O error or timeout the engine terminates the
command loop immediately, sends no reply for that read, and deregisters
without closing the transport (only the QUIT branch closes it); a line
exceeding the buffering limit, however, does not terminate the loop: the
buffered reader's prefix-only signal is dropped by `readLine`, so the line
arrives as an empty command line, is answered 502, and the loop goes on. -/
theorem c4_read_failure (cfg : Config) (parse : AddrValidator) (s : Session)
    (rest : List Ev) :
    (runFrom cfg parse s .cmd (Ev.rdErr :: rest) = ⟨[], [], .readErr⟩ ∧
      Term.readErr.connClosed = false) ∧
    runFrom cfg parse s .cmd (Ev.tooLong :: rest) =
      prepOut [⟨502, "unsupported command"⟩] []
        (runFrom cfg parse s .cmd rest) :=
  ⟨⟨runFrom_rdErr_cmd cfg parse s rest, rfl⟩,
    runFrom_tooLong_cmd cfg parse s rest⟩

/-- C5: the invariant "recipients non-empty only if the sender is set" holds
for the initial session, is preserved by every command handler (HELO/EHLO,
MAIL, RCPT, DATA, RSET, NOOP, QUIT, unrecognized — any line whatsoever, in
either loop mode), and therefore holds for every session value reachable by
any sequence of read events from the initial state. -/
theorem c5_invariant (cfg : Config) (parse : AddrValidator) :
    Inv Session.init ∧
    (∀ (s : Session) (m : Mode) (l : String) (s2 : Session) (m2 : Mode)
      (rs : List Reply) (ms : List Message), Inv s →
      stepLine cfg parse s m l = .cont s2 m2 rs ms → Inv s2) ∧
    (∀ (evs : List Ev) (s2 : Session),
      s2 ∈ sessTrace cfg parse Session.init .cmd evs → Inv s2) :=
  ⟨fun hne => absurd rfl hne,
    stepLine_inv cfg parse,
    fun evs s2 hs2 =>
      sessTrace_inv cfg parse evs Session.init .cmd
        (fun hne => absurd rfl hne) s2 hs2⟩

/-- C5 witness: the invariant checked on a session reached by a concrete
command sequence (a MAIL followed by a RCPT). -/
theorem c5_invariant_witness :
    (Session.mk "a@localhost" ["b@localhost"] ∈
      sessTrace cfg0 parse0 Session.init .cmd
        [Ev.line "MAIL FROM:a@localhost", Ev.line "RCPT TO:b@localhost"]) ∧
    Inv ⟨"a@localhost", ["b@localhost"]⟩ :=
  ⟨by decide,
    (c5_invariant cfg0 parse0).2.2
      [Ev.line "MAIL FROM:a@localhost", Ev.line "RCPT TO:b@localhost"]
      ⟨"a@localhost", ["b@localhost"]⟩ (by decide)⟩

/-- C7: DATA with an empty recipient list replies 503 "RCPT must be invoked
first", leaves the session unchanged, and never enters body-collection mode:
no 354 is sent, no message is emitted, and the loop continues in command
mode on the very next input event with the same session (no body line is
consumed). -/
theorem c7_data_without_rcpt (cfg : Config) (parse : AddrValidator)
    (s : Session) (rest : List Ev) (hs : s.mailTo = []) :
    stepLine cfg parse s .cmd "DATA" =
      .cont s .cmd [⟨503, "RCPT must be invoked first"⟩] [] ∧
    runFrom cfg parse s .cmd (Ev.line "DATA" :: rest) =
      prepOut [⟨503, "RCPT must be invoked first"⟩] []
        (runFrom cfg parse s .cmd rest) := by
  have h1 : stepLine cfg parse s .cmd "DATA" =
      .cont s .cmd [⟨503, "RCPT must be invoked first"⟩] [] := by
    rw [stepLine_DATA]
    simp [hs]
  exact ⟨h1, runFrom_line cfg parse _ _ _ _ _ _ _ _ h1⟩

/-- C7 witness: DATA as the first command of a session; the 503 reply is
followed by normal processing of the next line (a NOOP), showing no body
line was consumed. -/
theorem c7_data_without_rcpt_witness :
    Session.init.mailTo = [] ∧
    runFrom cfg0 parse0 Session.init .cmd [Ev.line "DATA", Ev.line "NOOP"] =
      ⟨[⟨503, "RCPT must be invoked first"⟩, ⟨250, "ok"⟩], [], .readErr⟩ := by
  refine ⟨rfl, ?_⟩
  have h := (c7_data_without_rcpt cfg0 parse0 Session.init [Ev.line "NOOP"] rfl).2
  rw [h]
  decide

/-- C8: during body collection the engine stops exactly at the first line
that is entirely "." and excludes it from the assembled body; every other
line is appended verbatim — in particular a line beginning with "." that is
longer than one character is ordinary content (no dot-unstuffing). -/
theorem c8_dot_terminator (cfg : Config) (parse : AddrValidator)
    (s : Session) (lines : List String) (l : String) :
    stepLine cfg parse s (.data lines) "." =
      .cont Session.init .cmd [⟨250, "message queued for delivery"⟩]
        [⟨s.mailFrom, s.mailTo, joinCRLF lines⟩] ∧
    (l ≠ "." →
      stepLine cfg parse s (.data lines) l =
        .cont s (.data (lines ++ [l])) [] []) ∧
    (l.data.head? = some '.' → 1 < l.length →
      stepLine cfg parse s (.data lines) l =
        .cont s (.data (lines ++ [l])) [] []) := by
  refine ⟨stepLine_dot cfg parse s lines,
    fun h => stepLine_dataLine cfg parse s lines l h,
    fun _ h2 => stepLine_dataLine cfg parse s lines l ?_⟩
  intro he
  subst he
  exact absurd h2 (by decide)

/-- C8 witness: a dotted long line ("..x") is kept verbatim, and the round
trip of the specification: body lines this/is/a/test terminated by "." give
the CRLF-joined body, with the terminator excluded. -/
theorem c8_dot_terminator_witness :
    ("..x" : String) ≠ "." ∧
    ("..x" : String).data.head? = some '.' ∧ 1 < ("..x" : String).length ∧
    stepLine cfg0 parse0 ⟨"a@localhost", ["b@localhost"]⟩ (.data ["this", "is"])
        "..x" =
      .cont ⟨"a@localhost", ["b@localhost"]⟩ (.data ["this", "is", "..x"]) [] [] ∧
    stepLine cfg0 parse0 ⟨"a@localhost", ["b@localhost"]⟩
        (.data ["this", "is", "a", "test"]) "." =
      .cont Session.init .cmd [⟨250, "message queued for delivery"⟩]
        [⟨"a@localhost", ["b@localhost"],
          joinCRLF ["this", "is", "a", "test"]⟩] ∧
    joinCRLF ["this", "is", "a", "test"] = "this\r\nis\r\na\r\ntest" :=
  ⟨by decide, by decide, by decide,
    (c8_dot_terminator cfg0 parse0 ⟨"a@localhost", ["b@localhost"]⟩
        ["this", "is"] "..x").2.2 (by decide) (by decide),
    (c8_dot_terminator cfg0 parse0 ⟨"a@localhost", ["b@localhost"]⟩
        ["this", "is", "a", "test"] ".").1,
    by decide⟩

/-- C9: with no sender set, any RCPT command — whatever its parameter —
replies 503 "MAIL must be invoked first" and mutates nothing: the handler
returns the identical session, and the loop continues from it. -/
theorem c9_rcpt_before_mail (cfg : Config) (parse : AddrValidator)
    (s : Session) (b : String) (rest : List Ev) (hs : s.mailFrom = "") :
    processRCPT parse s b = .ok s [⟨503, "MAIL must be invoked first"⟩] ∧
    runFrom cfg parse s .cmd (Ev.line ("RCPT " ++ b) :: rest) =
      prepOut [⟨503, "MAIL must be invoked first"⟩] []
        (runFrom cfg parse s .cmd rest) := by
  have h1 : processRCPT parse s b = .ok s [⟨503, "MAIL must be invoked first"⟩] := by
    have hlen : s.mailFrom.length = 0 := (str_len_zero _).mpr hs
    simp [processRCPT, hlen]
  refine ⟨h1, runFrom_line cfg parse _ _ _ _ _ _ _ _ ?_⟩
  rw [stepLine_RCPT, h1]

/-- C9 witness: RCPT as the first command of a session. -/
theorem c9_rcpt_before_mail_witness :
    Session.init.mailFrom = "" ∧
    processRCPT parse0 Session.init "TO:b@localhost" =
      .ok Session.init [⟨503, "MAIL must be invoked first"⟩] :=
  ⟨rfl, (c9_rcpt_before_mail cfg0 parse0 Session.init "TO:b@localhost" [] rfl).1⟩

/-- C10: with a sender already set, a second MAIL command — whatever its
parameter — replies 503 "MAIL already invoked" and leaves the sender and the
recipient list untouched: the handler returns the identical session, and the
loop continues from it. -/
theorem c10_second_mail (cfg : Config) (parse : AddrValidator)
    (s : Session) (b : String) (rest : List Ev) (hs : s.mailFrom ≠ "") :
    processMAIL parse s b = (s, [⟨503, "MAIL already invoked"⟩]) ∧
    runFrom cfg parse s .cmd (Ev.line ("MAIL " ++ b) :: rest) =
      prepOut [⟨503, "MAIL already invoked"⟩] []
        (runFrom cfg parse s .cmd rest) := by
  have h1 : processMAIL parse s b = (s, [⟨503, "MAIL already invoked"⟩]) := by
    have hlen : s.mailFrom.length ≠ 0 := fun hh => hs ((str_len_zero _).mp hh)
    simp [processMAIL, hlen]
  refine ⟨h1, runFrom_line cfg parse _ _ _ _ _ _ _ _ ?_⟩
  rw [stepLine_MAIL, h1]

/-- C10 witness: a second MAIL after a successful one, with a different
parameter; sender and recipients keep their values. -/
theorem c10_second_mail_witness :
    (Session.mk "a@localhost" ["b@localhost"]).mailFrom ≠ "" ∧
    processMAIL parse0 ⟨"a@localhost", ["b@localhost"]⟩ "FROM:x@y" =
      (⟨"a@localhost", ["b@localhost"]⟩, [⟨503, "MAIL already invoked"⟩]) :=
  ⟨by decide,
    (c10_second_mail cfg0 parse0 ⟨"a@localhost", ["b@localhost"]⟩ "FROM:x@y" []
      (by decide)).1⟩

end Smtpsrv
